import Mathlib

/-!
# agromount: attach-time configuration

A shallow embedding of `cmd/agromount/main.go`.  The command keeps its flags in
package-level variables; `configureServer` (the `PersistentPreRun` hook) reads them,
validates them one after the other and either terminates the process with
`os.Exit(1)` after writing one line to standard error, or assigns the package-level
`cfg`.  The package-level variables are an explicit record here, and a run of
`configureServer` is a function from that record to an outcome.

Go strings are byte strings compared bytewise by `switch`; they are `String` here,
compared by equality.  `uint64` byte counts are `Nat`: no arithmetic is done on them.
-/

namespace Agromount

/-! ## Types declared in package `agro` -/

/-- Modelled from the spec: the type `agro.ReadLevel` and its constants are declared
outside `main.go`; section 3 gives it as the enumeration
"ReadLevel ∈ {Spread, Sequential, Block}". -/
inductive ReadLevel where
  | ReadSpread
  | ReadSequential
  | ReadBlock
  deriving DecidableEq, Repr

/-- Modelled from the spec: the type `agro.WriteLevel` and its constants are declared
outside `main.go`; section 3 gives it as the enumeration
"WriteLevel ∈ {All, One, Local}". -/
inductive WriteLevel where
  | WriteAll
  | WriteOne
  | WriteLocal
  deriving DecidableEq, Repr

/-- Modelled from the spec: the struct `agro.Config` is declared outside `main.go`;
the fields are the five that the composite literal in `configureServer` sets (every
other field of the struct keeps its zero value and is not represented). -/
structure Config where
  StorageSize : Nat
  MetadataAddress : String
  ReadCacheSize : Nat
  WriteLevel : WriteLevel
  ReadLevel : ReadLevel
  deriving DecidableEq, Repr

/-! ## External libraries -/

/-- The value `capnslog` returns for a parsed `--logpkg` string, `map[string]LogLevel`,
as an association list. -/
abbrev LogLevelConfig := List (String × Int)

/-- The two library parsers `configureServer` calls, taken as parameters:
`RepoLogger.ParseLogLevelConfig` of `capnslog` and `humanize.ParseBytes`.
A Go result `(v, err)` is `Except.ok v` when `err == nil` and `Except.error e`
otherwise, `e` being the text `%s` prints for `err`. -/
structure Lib where
  ParseLogLevelConfig : String → Except String LogLevelConfig
  ParseBytes : String → Except String Nat

/-! ## Package-level variables -/

/-- The package-level `var (...)` block of `main.go` (the unused `debug` and the
logger `clog` apart), with the repo logger's level table that `rl.SetLogLevel`
writes. -/
structure Globals where
  etcdAddress : String
  localBlockSizeStr : String
  localBlockSize : Nat
  readCacheSizeStr : String
  readCacheSize : Nat
  readLevel : String
  writeLevel : String
  logpkg : String
  cfg : Config
  repoLogLevel : Option LogLevelConfig
  deriving DecidableEq, Repr

/-- The flag defaults registered in `init()`; the numeric variables and `cfg` start
at their zero values (`ReadLevel` and `WriteLevel` at their first constant). -/
def initGlobals : Globals :=
  { etcdAddress := "127.0.0.1:2378"
    localBlockSizeStr := "128MiB"
    localBlockSize := 0
    readCacheSizeStr := "20MiB"
    readCacheSize := 0
    readLevel := "block"
    writeLevel := "all"
    logpkg := ""
    cfg := ⟨0, "", 0, .WriteAll, .ReadSpread⟩
    repoLogLevel := none }

/-- How a run of `configureServer` ends: it returns with the package-level variables
updated, or the process terminates through `os.Exit(status)` with `stderr` written to
standard error. -/
inductive Outcome where
  | ok (g : Globals)
  | exit (status : Nat) (stderr : String)
  deriving DecidableEq, Repr

/-- The function `configureServer` of `main.go`, lines 64-120. -/
def configureServer (lib : Lib) (g : Globals) : Outcome :=
  -- if logpkg != "" { ... }
  let logged : Except String Globals :=
    if g.logpkg ≠ "" then
      match lib.ParseLogLevelConfig g.logpkg with
      | .error err => .error ("error parsing logpkg: " ++ err ++ "\n")
      | .ok llc => .ok { g with repoLogLevel := some llc }
    else .ok g
  match logged with
  | .error msg => .exit 1 msg
  | .ok g =>
    -- readCacheSize, err = humanize.ParseBytes(readCacheSizeStr)
    match lib.ParseBytes g.readCacheSizeStr with
    | .error err => .exit 1 ("error parsing read-cache-size: " ++ err ++ "\n")
    | .ok rc =>
      let g := { g with readCacheSize := rc }
      -- localBlockSize, err = humanize.ParseBytes(localBlockSizeStr)
      match lib.ParseBytes g.localBlockSizeStr with
      | .error err => .exit 1 ("error parsing write-cache-size: " ++ err ++ "\n")
      | .ok lb =>
        let g := { g with localBlockSize := lb }
        -- switch readLevel
        let rl : Option ReadLevel :=
          if g.readLevel = "spread" then some .ReadSpread
          else if g.readLevel = "seq" then some .ReadSequential
          else if g.readLevel = "block" then some .ReadBlock
          else none
        match rl with
        | none => .exit 1 "invalid readlevel; use one of 'spread', 'seq', or 'block'"
        | some rl =>
          -- switch writeLevel
          let wl : Option WriteLevel :=
            if g.writeLevel = "all" then some .WriteAll
            else if g.writeLevel = "one" then some .WriteOne
            else if g.writeLevel = "local" then some .WriteLocal
            else none
          match wl with
          | none => .exit 1 "invalid writelevel; use one of 'one', 'all', or 'local'"
          | some wl =>
            .ok { g with
              cfg :=
                { StorageSize := g.localBlockSize
                  MetadataAddress := g.etcdAddress
                  ReadCacheSize := g.readCacheSize
                  WriteLevel := wl
                  ReadLevel := rl } }

/-- A stand-in for the two libraries on a handful of strings, for evaluating
`configureServer` on concrete flag values: byte sizes are read off a table holding
the two flag defaults and plain `"0"`, and a `--logpkg` value is accepted when it is
the single setting `"agro=DEBUG"`.  Every other string is rejected, with an error
text made of a fixed prefix and the string. -/
def tableLib : Lib :=
  { ParseLogLevelConfig := fun s =>
      if s = "agro=DEBUG" then .ok [("agro", 1)]
      else .error ("oddly structured `pkg=level` option: " ++ s)
    ParseBytes := fun s =>
      if s = "128MiB" then .ok 134217728
      else if s = "20MiB" then .ok 20971520
      else if s = "0" then .ok 0
      else .error ("unhandled size name: " ++ s) }

/-- The package-level variables after `configureServer` has run on the flag
defaults, with `tableLib` for the libraries. -/
def initConfigured : Globals :=
  { initGlobals with
    readCacheSize := 20971520
    localBlockSize := 134217728
    cfg := ⟨134217728, "127.0.0.1:2378", 20971520, .WriteAll, .ReadBlock⟩ }

/-! ## The write path of the Consistency Coordinator

`main.go` only selects the write level; the code that waits for the replicas is in the
`distributor` package, outside the sources at hand.  It is modelled here from
section 4.4 and section 5 of the spec: a write is issued to every replica of the set,
the outcomes arrive one by one in some order, and the wait is "a join over N outcomes
with early-exit on definitive failure/success". -/

/-- Modelled from the spec: a replica identifier of a ReplicaSet ("ordered set of
replica identifiers"); the replica set itself is absent from the sources. -/
abbrev ReplicaID := Nat

/-- Modelled from the spec: what a Replica Client reports for one write, absent from
the sources: an acknowledgment, or `ReplicaUnavailable`. -/
inductive ReplicaOutcome where
  | ack
  | ReplicaUnavailable
  deriving DecidableEq, Repr

/-- Modelled from the spec: how the write path completes, absent from the sources:
with a success report or with `WriteQuorumFailed`. -/
inductive WriteStatus where
  | success
  | WriteQuorumFailed
  deriving DecidableEq, Repr

/-- Modelled from the spec: the PendingWrite of section 3, absent from the sources:
"tracks which replica identifiers have acknowledged". -/
structure PendingWrite where
  acked : List ReplicaID
  deriving DecidableEq, Repr

/-- Modelled from the spec: `markAcked(writeHandle, replicaID)` of section 4.2, absent
from the sources. -/
def PendingWrite.markAcked (pw : PendingWrite) (r : ReplicaID) : PendingWrite :=
  { pw with acked := r :: pw.acked }

/-- Modelled from the spec: the point at which a write completes, absent from the
sources: the status reported to the caller, the number of arrived outcomes taken
before it was reported, and the acknowledgments recorded by then. -/
structure Completion where
  status : WriteStatus
  consumed : Nat
  pending : PendingWrite
  deriving DecidableEq, Repr

/-- Modelled from the spec: the wait under WriteLevel `All`, absent from the sources:
"succeed only once every replica in ReplicaSet acknowledges ... If any replica fails,
the whole operation fails with `WriteQuorumFailed`".  `arrivals` are the outcomes in
the order they arrive; `n` counts the ones already taken.  Outcomes of replicas outside
the set are skipped.  When no outcome is left and some replica has not acknowledged,
its operation has run into its timeout, which is "treated identically to a transport
failure". -/
def awaitAll (replicas : List ReplicaID) (pw : PendingWrite) (n : Nat) :
    List (ReplicaID × ReplicaOutcome) → Completion
  | [] =>
    if replicas.all (fun r => decide (r ∈ pw.acked)) then ⟨.success, n, pw⟩
    else ⟨.WriteQuorumFailed, n, pw⟩
  | (r, o) :: rest =>
    if replicas.all (fun r => decide (r ∈ pw.acked)) then ⟨.success, n, pw⟩
    else if r ∈ replicas then
      match o with
      | .ack => awaitAll replicas (pw.markAcked r) (n + 1) rest
      | .ReplicaUnavailable => ⟨.WriteQuorumFailed, n + 1, pw⟩
    else awaitAll replicas pw (n + 1) rest

/-- Modelled from the spec: the wait under WriteLevel `One`, absent from the sources:
"succeed once any single replica acknowledges"; with no acknowledgment among the
outcomes the write fails with `WriteQuorumFailed`. -/
def awaitOne (replicas : List ReplicaID) (pw : PendingWrite) (n : Nat) :
    List (ReplicaID × ReplicaOutcome) → Completion
  | [] => ⟨.WriteQuorumFailed, n, pw⟩
  | (r, o) :: rest =>
    if r ∈ replicas ∧ o = .ack then ⟨.success, n + 1, pw.markAcked r⟩
    else awaitOne replicas pw (n + 1) rest

/-- Modelled from the spec: the write path "dispatched by WriteLevel", absent from the
sources: `Local` succeeds once staged, without waiting for any replica; `One` and
`All` wait as above, starting from a PendingWrite with no acknowledgment. -/
def write (level : WriteLevel) (replicas : List ReplicaID)
    (arrivals : List (ReplicaID × ReplicaOutcome)) : Completion :=
  match level with
  | .WriteLocal => ⟨.success, 0, ⟨[]⟩⟩
  | .WriteOne => awaitOne replicas ⟨[]⟩ 0 arrivals
  | .WriteAll => awaitAll replicas ⟨[]⟩ 0 arrivals

/-! ## The checks, one by one

The definitions below do not come from the code: they state each of the five input
checks on its own, in the words of the property being proved, to be compared with
what `configureServer` does. -/

/-- A library call returned without an error. -/
def parses {α : Type} (r : Except String α) : Bool :=
  match r with
  | .ok _ => true
  | .error _ => false

/-- The read-level strings named by the message for an invalid `--readlevel`. -/
def readLevelNames : List String := ["spread", "seq", "block"]

/-- The write-level strings named by the message for an invalid `--writelevel`. -/
def writeLevelNames : List String := ["one", "all", "local"]

/-- The line reported for `--logpkg`, if that flag alone is looked at. -/
def logpkgError (lib : Lib) (g : Globals) : Option String :=
  if g.logpkg = "" then none
  else
    match lib.ParseLogLevelConfig g.logpkg with
    | .error err => some ("error parsing logpkg: " ++ err ++ "\n")
    | .ok _ => none

/-- The line reported for `--read-cache-size`, if that flag alone is looked at. -/
def readCacheSizeError (lib : Lib) (g : Globals) : Option String :=
  match lib.ParseBytes g.readCacheSizeStr with
  | .error err => some ("error parsing read-cache-size: " ++ err ++ "\n")
  | .ok _ => none

/-- The line reported for `--write-cache-size`, if that flag alone is looked at. -/
def writeCacheSizeError (lib : Lib) (g : Globals) : Option String :=
  match lib.ParseBytes g.localBlockSizeStr with
  | .error err => some ("error parsing write-cache-size: " ++ err ++ "\n")
  | .ok _ => none

/-- The line reported for `--readlevel`, if that flag alone is looked at. -/
def readLevelError (g : Globals) : Option String :=
  if g.readLevel ∈ readLevelNames then none
  else some "invalid readlevel; use one of 'spread', 'seq', or 'block'"

/-- The line reported for `--writelevel`, if that flag alone is looked at. -/
def writeLevelError (g : Globals) : Option String :=
  if g.writeLevel ∈ writeLevelNames then none
  else some "invalid writelevel; use one of 'one', 'all', or 'local'"

/-- The five checks in the order logpkg, read-cache-size, write-cache-size, readlevel,
writelevel. -/
def checksInOrder (lib : Lib) (g : Globals) : List (Option String) :=
  [logpkgError lib g, readCacheSizeError lib g, writeCacheSizeError lib g,
    readLevelError g, writeLevelError g]

/-- The line of the first check of `checksInOrder` that fails, if one does. -/
def firstFailure (lib : Lib) (g : Globals) : Option String :=
  (checksInOrder lib g).findSome? id

/-! ## Shared lemmas -/

theorem configureServer_eq (lib : Lib) (g : Globals) :
    configureServer lib g =
      match firstFailure lib g with
      | some msg => .exit 1 msg
      | none =>
        .ok { g with
          repoLogLevel :=
            if g.logpkg = "" then g.repoLogLevel
            else (lib.ParseLogLevelConfig g.logpkg).toOption
          readCacheSize := ((lib.ParseBytes g.readCacheSizeStr).toOption).getD 0
          localBlockSize := ((lib.ParseBytes g.localBlockSizeStr).toOption).getD 0
          cfg :=
            { StorageSize := ((lib.ParseBytes g.localBlockSizeStr).toOption).getD 0
              MetadataAddress := g.etcdAddress
              ReadCacheSize := ((lib.ParseBytes g.readCacheSizeStr).toOption).getD 0
              WriteLevel :=
                if g.writeLevel = "all" then .WriteAll
                else if g.writeLevel = "one" then .WriteOne else .WriteLocal
              ReadLevel :=
                if g.readLevel = "spread" then .ReadSpread
                else if g.readLevel = "seq" then .ReadSequential else .ReadBlock } } := by
  unfold configureServer firstFailure checksInOrder logpkgError readCacheSizeError
    writeCacheSizeError readLevelError writeLevelError readLevelNames writeLevelNames
  by_cases hl : g.logpkg = ""
  all_goals
    cases h0 : lib.ParseLogLevelConfig g.logpkg <;>
    cases h1 : lib.ParseBytes g.readCacheSizeStr <;>
    cases h2 : lib.ParseBytes g.localBlockSizeStr <;>
    by_cases r1 : g.readLevel = "spread" <;>
    by_cases r2 : g.readLevel = "seq" <;>
    by_cases r3 : g.readLevel = "block" <;>
    by_cases w1 : g.writeLevel = "all" <;>
    by_cases w2 : g.writeLevel = "one" <;>
    by_cases w3 : g.writeLevel = "local" <;>
    simp_all [Except.toOption]

theorem firstFailure_eq_none_iff (lib : Lib) (g : Globals) :
    firstFailure lib g = none ↔
      (g.logpkg = "" ∨ parses (lib.ParseLogLevelConfig g.logpkg) = true) ∧
      parses (lib.ParseBytes g.readCacheSizeStr) = true ∧
      parses (lib.ParseBytes g.localBlockSizeStr) = true ∧
      g.readLevel ∈ readLevelNames ∧ g.writeLevel ∈ writeLevelNames := by
  unfold firstFailure checksInOrder logpkgError readCacheSizeError writeCacheSizeError
    readLevelError writeLevelError
  by_cases hl : g.logpkg = "" <;>
  cases h0 : lib.ParseLogLevelConfig g.logpkg <;>
  cases h1 : lib.ParseBytes g.readCacheSizeStr <;>
  cases h2 : lib.ParseBytes g.localBlockSizeStr <;>
  by_cases hr : g.readLevel ∈ readLevelNames <;>
  by_cases hw : g.writeLevel ∈ writeLevelNames <;>
  simp [List.findSome?, parses, hl, hr, hw]

theorem configureServer_ok_of_no_failure (lib : Lib) (g : Globals)
    (h : firstFailure lib g = none) : ∃ g', configureServer lib g = .ok g' := by
  rw [configureServer_eq, h]
  exact ⟨_, rfl⟩

theorem configureServer_exit_of_failure (lib : Lib) (g : Globals) (msg : String)
    (h : firstFailure lib g = some msg) : configureServer lib g = .exit 1 msg := by
  rw [configureServer_eq, h]

theorem parses_eq_true_iff {α : Type} (r : Except String α) :
    parses r = true ↔ ∃ v, r = .ok v := by
  cases r <;> simp [parses]

theorem configureServer_ok_fields (lib : Lib) (g g' : Globals)
    (h : configureServer lib g = .ok g') :
    firstFailure lib g = none ∧
    lib.ParseBytes g.localBlockSizeStr = .ok g'.cfg.StorageSize ∧
    lib.ParseBytes g.readCacheSizeStr = .ok g'.cfg.ReadCacheSize ∧
    g'.cfg.MetadataAddress = g.etcdAddress ∧
    g'.cfg.ReadLevel =
      (if g.readLevel = "spread" then .ReadSpread
        else if g.readLevel = "seq" then .ReadSequential else .ReadBlock) ∧
    g'.cfg.WriteLevel =
      (if g.writeLevel = "all" then .WriteAll
        else if g.writeLevel = "one" then .WriteOne else .WriteLocal) := by
  cases hf : firstFailure lib g with
  | some msg => rw [configureServer_exit_of_failure lib g msg hf] at h; cases h
  | none =>
    obtain ⟨-, hrc, hwc, -, -⟩ := (firstFailure_eq_none_iff lib g).1 hf
    obtain ⟨rc, hrc⟩ := (parses_eq_true_iff _).1 hrc
    obtain ⟨lb, hwc⟩ := (parses_eq_true_iff _).1 hwc
    rw [configureServer_eq, hf] at h
    simp only [Outcome.ok.injEq] at h
    subst h
    simp [hrc, hwc, Except.toOption]

theorem findSome_id_of_first {α : Type} (l : List (Option α)) (i : Nat) (m : α)
    (hi : l[i]? = some (some m)) (hj : ∀ j, j < i → l[j]? = some none) :
    l.findSome? id = some m := by
  induction l generalizing i with
  | nil => simp at hi
  | cons a t ih =>
    cases i with
    | zero =>
      simp only [List.getElem?_cons_zero, Option.some.injEq] at hi
      simp [List.findSome?, hi]
    | succ k =>
      have h0 := hj 0 (Nat.succ_pos k)
      simp only [List.getElem?_cons_zero, Option.some.injEq] at h0
      subst h0
      simp only [List.findSome?, id_eq]
      exact ih k (by simpa using hi) (fun j hjk => by simpa using hj (j + 1) (by omega))

theorem findSome_id_of_all_none {α : Type} (l : List (Option α))
    (h : ∀ c ∈ l, c = none) : l.findSome? id = none := by
  induction l with
  | nil => rfl
  | cons a t ih =>
    have ha : a = none := h a (List.mem_cons_self a t)
    subst ha
    simp only [List.findSome?, id_eq]
    exact ih (fun c hc => h c (List.mem_cons_of_mem _ hc))

theorem awaitAll_consumed_ge (replicas : List ReplicaID)
    (arrivals : List (ReplicaID × ReplicaOutcome)) :
    ∀ (pw : PendingWrite) (n : Nat), n ≤ (awaitAll replicas pw n arrivals).consumed := by
  induction arrivals with
  | nil =>
    intro pw n
    unfold awaitAll
    split <;> exact Nat.le_refl n
  | cons a rest ih =>
    intro pw n
    obtain ⟨r, o⟩ := a
    unfold awaitAll
    split
    · exact Nat.le_refl n
    · split
      · cases o with
        | ack => exact Nat.le_trans (Nat.le_succ n) (ih _ (n + 1))
        | ReplicaUnavailable => exact Nat.le_succ n
      · exact Nat.le_trans (Nat.le_succ n) (ih _ (n + 1))

theorem awaitAll_success_acked (replicas : List ReplicaID)
    (arrivals : List (ReplicaID × ReplicaOutcome)) :
    ∀ (pw : PendingWrite) (n : Nat),
      (awaitAll replicas pw n arrivals).status = .success →
      ∀ r ∈ replicas, r ∈ pw.acked ∨
        (r, ReplicaOutcome.ack) ∈
          arrivals.take ((awaitAll replicas pw n arrivals).consumed - n) := by
  induction arrivals with
  | nil =>
    intro pw n hs r hr
    unfold awaitAll at hs
    split at hs
    · rename_i hall
      left
      simpa using (List.all_eq_true.1 hall) r hr
    · cases hs
  | cons a rest ih =>
    intro pw n hs r hr
    obtain ⟨r₀, o⟩ := a
    have hge := awaitAll_consumed_ge replicas ((r₀, o) :: rest) pw n
    unfold awaitAll at hs hge ⊢
    split at hs
    · rename_i hall
      left
      simpa using (List.all_eq_true.1 hall) r hr
    · rename_i hall
      simp only [hall, Bool.false_eq_true, if_false] at hge ⊢
      split at hs
      · rename_i hmem
        simp only [hmem, if_true] at hge ⊢
        cases o with
        | ReplicaUnavailable => cases hs
        | ack =>
          simp only at hs hge ⊢
          have hge' := awaitAll_consumed_ge replicas rest (pw.markAcked r₀) (n + 1)
          have hk : (awaitAll replicas (pw.markAcked r₀) (n + 1) rest).consumed - n =
              ((awaitAll replicas (pw.markAcked r₀) (n + 1) rest).consumed - (n + 1)) + 1 := by
            omega
          rw [hk, List.take_succ_cons]
          rcases ih (pw.markAcked r₀) (n + 1) hs r hr with h | h
          · simp only [PendingWrite.markAcked, List.mem_cons] at h
            rcases h with h | h
            · right
              rw [h]
              exact List.mem_cons_self _ _
            · left
              exact h
          · right
            exact List.mem_cons_of_mem _ h
      · rename_i hmem
        simp only [hmem, if_false] at hge ⊢
        have hge' := awaitAll_consumed_ge replicas rest pw (n + 1)
        have hk : (awaitAll replicas pw (n + 1) rest).consumed - n =
            ((awaitAll replicas pw (n + 1) rest).consumed - (n + 1)) + 1 := by
          omega
        rw [hk, List.take_succ_cons]
        rcases ih pw (n + 1) hs r hr with h | h
        · left
          exact h
        · right
          exact List.mem_cons_of_mem _ h

/-! ## Theorems -/

/-- C8: `configureServer` succeeds exactly when `--logpkg` is empty or parses, both
cache-size strings parse, `--readlevel` is one of 'spread', 'seq', 'block' and
`--writelevel` is one of 'all', 'one', 'local'; when it does not succeed it exits with
status 1; and replacing the `--etcd` string by any other never changes whether it
succeeds. -/
theorem configureServer_succeeds_iff (lib : Lib) (g : Globals) :
    ((∃ g', configureServer lib g = .ok g') ↔
      (g.logpkg = "" ∨ parses (lib.ParseLogLevelConfig g.logpkg) = true) ∧
      parses (lib.ParseBytes g.readCacheSizeStr) = true ∧
      parses (lib.ParseBytes g.localBlockSizeStr) = true ∧
      (g.readLevel = "spread" ∨ g.readLevel = "seq" ∨ g.readLevel = "block") ∧
      (g.writeLevel = "all" ∨ g.writeLevel = "one" ∨ g.writeLevel = "local")) ∧
    ((¬ ∃ g', configureServer lib g = .ok g') ↔ ∃ msg, configureServer lib g = .exit 1 msg) ∧
    (∀ addr : String,
      (∃ g', configureServer lib { g with etcdAddress := addr } = .ok g') ↔
        ∃ g', configureServer lib g = .ok g') := by
  have key : ∀ g : Globals, (∃ g', configureServer lib g = .ok g') ↔
      firstFailure lib g = none := by
    intro g
    constructor
    · rintro ⟨g', hg'⟩
      cases hf : firstFailure lib g with
      | none => rfl
      | some msg => rw [configureServer_exit_of_failure lib g msg hf] at hg'; cases hg'
    · exact configureServer_ok_of_no_failure lib g
  refine ⟨?_, ?_, ?_⟩
  · rw [key, firstFailure_eq_none_iff]
    simp only [readLevelNames, writeLevelNames, List.mem_cons, List.mem_singleton,
      List.not_mem_nil, or_false]
    tauto
  · rw [key]
    cases hf : firstFailure lib g with
    | none =>
      simp only [not_true_eq_false, false_iff, not_exists]
      intro msg hmsg
      obtain ⟨g', hg'⟩ := configureServer_ok_of_no_failure lib g hf
      rw [hg'] at hmsg
      cases hmsg
    | some msg =>
      simp only [reduceCtorEq, not_false_eq_true, true_iff]
      exact ⟨msg, configureServer_exit_of_failure lib g msg hf⟩
  · intro addr
    rw [key, key, firstFailure_eq_none_iff, firstFailure_eq_none_iff]

/-- C5: whenever `configureServer` succeeds, the Config it assigns carries the inputs
through: StorageSize is the byte count parsed from `--write-cache-size`, ReadCacheSize
is the byte count parsed from `--read-cache-size`, MetadataAddress is the `--etcd`
string, and ReadLevel and WriteLevel are the levels that the two switches select from
`--readlevel` and `--writelevel`. -/
theorem configureServer_carries_inputs (lib : Lib) (g g' : Globals)
    (h : configureServer lib g = .ok g') :
    lib.ParseBytes g.localBlockSizeStr = .ok g'.cfg.StorageSize ∧
    lib.ParseBytes g.readCacheSizeStr = .ok g'.cfg.ReadCacheSize ∧
    g'.cfg.MetadataAddress = g.etcdAddress ∧
    ((g.readLevel = "spread" ∧ g'.cfg.ReadLevel = .ReadSpread) ∨
      (g.readLevel = "seq" ∧ g'.cfg.ReadLevel = .ReadSequential) ∨
      (g.readLevel = "block" ∧ g'.cfg.ReadLevel = .ReadBlock)) ∧
    ((g.writeLevel = "all" ∧ g'.cfg.WriteLevel = .WriteAll) ∨
      (g.writeLevel = "one" ∧ g'.cfg.WriteLevel = .WriteOne) ∨
      (g.writeLevel = "local" ∧ g'.cfg.WriteLevel = .WriteLocal)) := by
  obtain ⟨hf, hs, hr, ha, hrl, hwl⟩ := configureServer_ok_fields lib g g' h
  obtain ⟨-, -, -, hrn, hwn⟩ := (firstFailure_eq_none_iff lib g).1 hf
  refine ⟨hs, hr, ha, ?_, ?_⟩
  · rw [hrl]
    simp only [readLevelNames, List.mem_cons, List.mem_singleton, List.not_mem_nil,
      or_false] at hrn
    rcases hrn with h1 | h1 | h1 <;> simp [h1]
  · rw [hwl]
    simp only [writeLevelNames, List.mem_cons, List.mem_singleton, List.not_mem_nil,
      or_false] at hwn
    rcases hwn with h1 | h1 | h1 <;> simp [h1]

/-- Witness for C5: with the flag defaults the two byte counts differ, and each lands
in its own field. -/
theorem configureServer_carries_inputs_witness :
    configureServer tableLib initGlobals = .ok initConfigured ∧
    (tableLib.ParseBytes "128MiB" = .ok 134217728 ∧
      tableLib.ParseBytes "20MiB" = .ok 20971520 ∧
      initConfigured.cfg.MetadataAddress = "127.0.0.1:2378" ∧
      (("block" = "spread" ∧ initConfigured.cfg.ReadLevel = .ReadSpread) ∨
        ("block" = "seq" ∧ initConfigured.cfg.ReadLevel = .ReadSequential) ∨
        ("block" = "block" ∧ initConfigured.cfg.ReadLevel = .ReadBlock)) ∧
      (("all" = "all" ∧ initConfigured.cfg.WriteLevel = .WriteAll) ∨
        ("all" = "one" ∧ initConfigured.cfg.WriteLevel = .WriteOne) ∨
        ("all" = "local" ∧ initConfigured.cfg.WriteLevel = .WriteLocal))) :=
  ⟨by decide, configureServer_carries_inputs tableLib initGlobals initConfigured (by decide)⟩

/-- C1, as stated, fails: with `--logpkg` empty, both cache sizes parseable and the
write level valid, the read-level value 'sequential' is rejected; and with a
`--logpkg` value that does not parse, the read-level value 'spread' yields no Config
either. -/
theorem configureServer_sequential_rejected :
    configureServer tableLib { initGlobals with readLevel := "sequential" } =
      .exit 1 "invalid readlevel; use one of 'spread', 'seq', or 'block'" ∧
    configureServer tableLib { initGlobals with readLevel := "spread", logpkg := "agro" } =
      .exit 1 "error parsing logpkg: oddly structured `pkg=level` option: agro\n" := by
  decide

/-- C1 (amended): with `--logpkg` empty or parseable, both cache-size strings parseable
and a valid write level, `configureServer` accepts each of the read-level values
'spread', 'seq' and 'block' and assigns a Config whose ReadLevel is ReadSpread,
ReadSequential and ReadBlock respectively. -/
theorem configureServer_readLevel_accepted (lib : Lib) (g : Globals)
    (hlog : g.logpkg = "" ∨ parses (lib.ParseLogLevelConfig g.logpkg) = true)
    (hrc : parses (lib.ParseBytes g.readCacheSizeStr) = true)
    (hwc : parses (lib.ParseBytes g.localBlockSizeStr) = true)
    (hwl : g.writeLevel = "all" ∨ g.writeLevel = "one" ∨ g.writeLevel = "local") :
    (g.readLevel = "spread" →
      ∃ g', configureServer lib g = .ok g' ∧ g'.cfg.ReadLevel = .ReadSpread) ∧
    (g.readLevel = "seq" →
      ∃ g', configureServer lib g = .ok g' ∧ g'.cfg.ReadLevel = .ReadSequential) ∧
    (g.readLevel = "block" →
      ∃ g', configureServer lib g = .ok g' ∧ g'.cfg.ReadLevel = .ReadBlock) := by
  have hwn : g.writeLevel ∈ writeLevelNames := by
    rcases hwl with h | h | h <;> simp [writeLevelNames, h]
  have step : ∀ lvl : ReadLevel, g.readLevel ∈ readLevelNames →
      lvl = (if g.readLevel = "spread" then ReadLevel.ReadSpread
        else if g.readLevel = "seq" then .ReadSequential else .ReadBlock) →
      ∃ g', configureServer lib g = .ok g' ∧ g'.cfg.ReadLevel = lvl := by
    intro lvl hrn hlvl
    obtain ⟨g', hg'⟩ := configureServer_ok_of_no_failure lib g
      ((firstFailure_eq_none_iff lib g).2 ⟨hlog, hrc, hwc, hrn, hwn⟩)
    exact ⟨g', hg', by rw [(configureServer_ok_fields lib g g' hg').2.2.2.2.1, hlvl]⟩
  refine ⟨fun h => step _ ?_ ?_, fun h => step _ ?_ ?_, fun h => step _ ?_ ?_⟩ <;>
    simp [readLevelNames, h]

/-- Witness for C1 (amended): the flag defaults with `--readlevel seq`. -/
theorem configureServer_readLevel_accepted_witness :
    ∃ g', configureServer tableLib { initGlobals with readLevel := "seq" } = .ok g' ∧
      g'.cfg.ReadLevel = .ReadSequential :=
  (configureServer_readLevel_accepted tableLib { initGlobals with readLevel := "seq" }
    (Or.inl rfl) (by decide) (by decide) (Or.inl rfl)).2.1 rfl

/-- C2, as stated, fails: with both cache-size strings parseable and a valid read
level, but a `--logpkg` value that does not parse, the write-level value 'all' yields
exit status 1 and no Config. -/
theorem configureServer_writeLevel_unreached :
    configureServer tableLib { initGlobals with writeLevel := "all", logpkg := "agro" } =
      .exit 1 "error parsing logpkg: oddly structured `pkg=level` option: agro\n" := by
  decide

/-- C2 (amended): with `--logpkg` empty or parseable, both cache-size strings parseable
and a valid read level, `configureServer` accepts each of the write-level values
'all', 'one' and 'local' and assigns a Config whose WriteLevel is WriteAll, WriteOne
and WriteLocal respectively; two successful runs whose `--writelevel` strings differ
assign different levels. -/
theorem configureServer_writeLevel_accepted (lib : Lib) (g : Globals)
    (hlog : g.logpkg = "" ∨ parses (lib.ParseLogLevelConfig g.logpkg) = true)
    (hrc : parses (lib.ParseBytes g.readCacheSizeStr) = true)
    (hwc : parses (lib.ParseBytes g.localBlockSizeStr) = true)
    (hrl : g.readLevel = "spread" ∨ g.readLevel = "seq" ∨ g.readLevel = "block") :
    (g.writeLevel = "all" →
      ∃ g', configureServer lib g = .ok g' ∧ g'.cfg.WriteLevel = .WriteAll) ∧
    (g.writeLevel = "one" →
      ∃ g', configureServer lib g = .ok g' ∧ g'.cfg.WriteLevel = .WriteOne) ∧
    (g.writeLevel = "local" →
      ∃ g', configureServer lib g = .ok g' ∧ g'.cfg.WriteLevel = .WriteLocal) ∧
    (∀ (lib₂ : Lib) (g₂ g' g₂' : Globals), configureServer lib g = .ok g' →
      configureServer lib₂ g₂ = .ok g₂' → g.writeLevel ≠ g₂.writeLevel →
      g'.cfg.WriteLevel ≠ g₂'.cfg.WriteLevel) := by
  have hrn : g.readLevel ∈ readLevelNames := by
    rcases hrl with h | h | h <;> simp [readLevelNames, h]
  have step : ∀ lvl : WriteLevel, g.writeLevel ∈ writeLevelNames →
      lvl = (if g.writeLevel = "all" then WriteLevel.WriteAll
        else if g.writeLevel = "one" then .WriteOne else .WriteLocal) →
      ∃ g', configureServer lib g = .ok g' ∧ g'.cfg.WriteLevel = lvl := by
    intro lvl hwn hlvl
    obtain ⟨g', hg'⟩ := configureServer_ok_of_no_failure lib g
      ((firstFailure_eq_none_iff lib g).2 ⟨hlog, hrc, hwc, hrn, hwn⟩)
    exact ⟨g', hg', by rw [(configureServer_ok_fields lib g g' hg').2.2.2.2.2, hlvl]⟩
  refine ⟨fun h => step _ ?_ ?_, fun h => step _ ?_ ?_, fun h => step _ ?_ ?_, ?_⟩
  iterate 6 simp [writeLevelNames, h]
  intro lib₂ g₂ g' g₂' h₁ h₂ hne
  obtain ⟨hf₁, -, -, -, -, hw₁⟩ := configureServer_ok_fields lib g g' h₁
  obtain ⟨hf₂, -, -, -, -, hw₂⟩ := configureServer_ok_fields lib₂ g₂ g₂' h₂
  obtain ⟨-, -, -, -, hn₁⟩ := (firstFailure_eq_none_iff lib g).1 hf₁
  obtain ⟨-, -, -, -, hn₂⟩ := (firstFailure_eq_none_iff lib₂ g₂).1 hf₂
  rw [hw₁, hw₂]
  simp only [writeLevelNames, List.mem_cons, List.mem_singleton, List.not_mem_nil,
    or_false] at hn₁ hn₂
  rcases hn₁ with a | a | a <;> rcases hn₂ with b | b | b <;> simp_all

/-- Witness for C2 (amended): the flag defaults with `--writelevel local`. -/
theorem configureServer_writeLevel_accepted_witness :
    ∃ g', configureServer tableLib { initGlobals with writeLevel := "local" } = .ok g' ∧
      g'.cfg.WriteLevel = .WriteLocal :=
  (configureServer_writeLevel_accepted tableLib { initGlobals with writeLevel := "local" }
    (Or.inl rfl) (by decide) (by decide) (Or.inr (Or.inr rfl))).2.2.1 rfl

/-- C3: for every read-level string other than 'spread', 'seq', 'block', and for every
write-level string other than 'one', 'all', 'local', `configureServer` ends in exit
status 1 and assigns no Config, whatever the other flags hold; matching is exact: an
empty `--readlevel` or `--writelevel`, `--readlevel Block` and `--writelevel ALL` are
all rejected. -/
theorem configureServer_rejects_invalid_level (lib : Lib) (g : Globals) :
    ((g.readLevel ∉ readLevelNames ∨ g.writeLevel ∉ writeLevelNames) →
      (∃ msg, configureServer lib g = .exit 1 msg) ∧
        ∀ g', configureServer lib g ≠ .ok g') ∧
    ((g.readLevel = "" ∨ g.readLevel = "Block" ∨ g.writeLevel = "" ∨
        g.writeLevel = "ALL") →
      (∃ msg, configureServer lib g = .exit 1 msg) ∧
        ∀ g', configureServer lib g ≠ .ok g') := by
  have main : (g.readLevel ∉ readLevelNames ∨ g.writeLevel ∉ writeLevelNames) →
      (∃ msg, configureServer lib g = .exit 1 msg) ∧
        ∀ g', configureServer lib g ≠ .ok g' := by
    intro h
    cases hf : firstFailure lib g with
    | none =>
      obtain ⟨-, -, -, hr, hw⟩ := (firstFailure_eq_none_iff lib g).1 hf
      rcases h with h | h
      · exact absurd hr h
      · exact absurd hw h
    | some msg =>
      have he := configureServer_exit_of_failure lib g msg hf
      refine ⟨⟨msg, he⟩, fun g' hg' => ?_⟩
      rw [he] at hg'
      cases hg'
  refine ⟨main, fun h => main ?_⟩
  rcases h with h | h | h | h
  · exact Or.inl (by rw [h]; decide)
  · exact Or.inl (by rw [h]; decide)
  · exact Or.inr (by rw [h]; decide)
  · exact Or.inr (by rw [h]; decide)

/-- Witness for C3: the flag defaults with `--readlevel Block`. -/
theorem configureServer_rejects_invalid_level_witness :
    "Block" ∉ readLevelNames ∧
    ((∃ msg, configureServer tableLib { initGlobals with readLevel := "Block" } =
        .exit 1 msg) ∧
      ∀ g', configureServer tableLib { initGlobals with readLevel := "Block" } ≠ .ok g') :=
  ⟨by decide,
    (configureServer_rejects_invalid_level tableLib
      { initGlobals with readLevel := "Block" }).1 (Or.inl (by decide))⟩

/-- C4, as stated, fails: with `--readlevel` and `--writelevel` at their defaults
'block' and 'all' and both cache-size strings parseable, but a `--logpkg` value that
does not parse, `configureServer` ends in exit status 1 and assigns no Config. -/
theorem configureServer_defaults_unreached :
    ({ initGlobals with logpkg := "agro" } : Globals).readLevel = "block" ∧
    ({ initGlobals with logpkg := "agro" } : Globals).writeLevel = "all" ∧
    parses (tableLib.ParseBytes
      ({ initGlobals with logpkg := "agro" } : Globals).readCacheSizeStr) = true ∧
    parses (tableLib.ParseBytes
      ({ initGlobals with logpkg := "agro" } : Globals).localBlockSizeStr) = true ∧
    configureServer tableLib { initGlobals with logpkg := "agro" } =
      .exit 1 "error parsing logpkg: oddly structured `pkg=level` option: agro\n" ∧
    ¬ ∃ g', configureServer tableLib { initGlobals with logpkg := "agro" } = .ok g' := by
  refine ⟨by decide, by decide, by decide, by decide, by decide, ?_⟩
  rintro ⟨g', hg'⟩
  have he : configureServer tableLib { initGlobals with logpkg := "agro" } =
      .exit 1 "error parsing logpkg: oddly structured `pkg=level` option: agro\n" := by
    decide
  rw [he] at hg'
  cases hg'

/-- C4 (amended): the default flag values are valid configuration: with `--logpkg`
empty (its default in `init()`) or parseable, `--readlevel` left at its default
'block' and `--writelevel` left at its default 'all', and both cache-size strings
parseable, `configureServer` succeeds and the Config it assigns has
ReadLevel = ReadBlock and WriteLevel = WriteAll. -/
theorem configureServer_defaults_valid (lib : Lib) (g : Globals)
    (hlog : g.logpkg = "" ∨ parses (lib.ParseLogLevelConfig g.logpkg) = true)
    (hrl : g.readLevel = initGlobals.readLevel)
    (hwl : g.writeLevel = initGlobals.writeLevel)
    (hrc : parses (lib.ParseBytes g.readCacheSizeStr) = true)
    (hwc : parses (lib.ParseBytes g.localBlockSizeStr) = true) :
    initGlobals.logpkg = "" ∧ initGlobals.readLevel = "block" ∧
    initGlobals.writeLevel = "all" ∧
    ∃ g', configureServer lib g = .ok g' ∧
      g'.cfg.ReadLevel = .ReadBlock ∧ g'.cfg.WriteLevel = .WriteAll := by
  have hrl' : g.readLevel = "block" := hrl
  have hwl' : g.writeLevel = "all" := hwl
  refine ⟨rfl, rfl, rfl, ?_⟩
  obtain ⟨g', hg'⟩ := configureServer_ok_of_no_failure lib g
    ((firstFailure_eq_none_iff lib g).2
      ⟨hlog, hrc, hwc, by rw [hrl']; decide, by rw [hwl']; decide⟩)
  obtain ⟨-, -, -, -, hr, hw⟩ := configureServer_ok_fields lib g g' hg'
  refine ⟨g', hg', ?_, ?_⟩
  · rw [hr, hrl']; decide
  · rw [hw, hwl']; rfl

/-- Witness for C4 (amended): every flag at its default, and the defaults with the
parseable `--logpkg agro=DEBUG`. -/
theorem configureServer_defaults_valid_witness :
    (∃ g', configureServer tableLib initGlobals = .ok g' ∧
      g'.cfg.ReadLevel = .ReadBlock ∧ g'.cfg.WriteLevel = .WriteAll) ∧
    (∃ g', configureServer tableLib { initGlobals with logpkg := "agro=DEBUG" } = .ok g' ∧
      g'.cfg.ReadLevel = .ReadBlock ∧ g'.cfg.WriteLevel = .WriteAll) :=
  ⟨(configureServer_defaults_valid tableLib initGlobals (Or.inl rfl) rfl rfl
      (by decide) (by decide)).2.2.2,
    (configureServer_defaults_valid tableLib { initGlobals with logpkg := "agro=DEBUG" }
      (Or.inr (by decide)) rfl rfl (by decide) (by decide)).2.2.2⟩

/-- C7: `configureServer` reports the first failing check in the order logpkg,
read-cache-size, write-cache-size, readlevel, writelevel: if the check at position `i`
of that order fails with line `msg` and every check before it passes, the run ends in
exit status 1 with exactly `msg` on standard error, whatever the checks after it
would say; if no check fails the run succeeds. -/
theorem configureServer_reports_first_failure (lib : Lib) (g : Globals) :
    (∀ (i : Nat) (msg : String), (checksInOrder lib g)[i]? = some (some msg) →
      (∀ j, j < i → (checksInOrder lib g)[j]? = some none) →
      configureServer lib g = .exit 1 msg) ∧
    ((∀ c ∈ checksInOrder lib g, c = none) → ∃ g', configureServer lib g = .ok g') := by
  constructor
  · intro i msg hi hj
    exact configureServer_exit_of_failure lib g msg (findSome_id_of_first _ i msg hi hj)
  · intro h
    exact configureServer_ok_of_no_failure lib g (findSome_id_of_all_none _ h)

/-- Witness for C7: with both cache-size strings unparseable the read-cache-size line
is the one reported, and with an unparseable write-cache-size together with an invalid
readlevel the write-cache-size line is. -/
theorem configureServer_reports_first_failure_witness :
    configureServer tableLib
        { initGlobals with readCacheSizeStr := "x", localBlockSizeStr := "y" } =
      .exit 1 "error parsing read-cache-size: unhandled size name: x\n" ∧
    configureServer tableLib
        { initGlobals with localBlockSizeStr := "y", readLevel := "sequential" } =
      .exit 1 "error parsing write-cache-size: unhandled size name: y\n" :=
  ⟨(configureServer_reports_first_failure tableLib
      { initGlobals with readCacheSizeStr := "x", localBlockSizeStr := "y" }).1 1 _
      (by decide) (by decide),
    (configureServer_reports_first_failure tableLib
      { initGlobals with localBlockSizeStr := "y", readLevel := "sequential" }).1 2 _
      (by decide) (by decide)⟩

/-- C6: under WriteLevel All, when a write reports success every replica of the replica
set has acknowledged among the outcomes taken before the report; and if the
acknowledgment of any one replica of the set is missing from the outcomes, the write
reports WriteQuorumFailed and not success. -/
theorem write_all_needs_every_ack (replicas : List ReplicaID)
    (arrivals : List (ReplicaID × ReplicaOutcome)) :
    ((write .WriteAll replicas arrivals).status = .success →
      ∀ r ∈ replicas, (r, ReplicaOutcome.ack) ∈
        arrivals.take (write .WriteAll replicas arrivals).consumed) ∧
    (∀ r ∈ replicas, (r, ReplicaOutcome.ack) ∉ arrivals →
      (write .WriteAll replicas arrivals).status = .WriteQuorumFailed ∧
        (write .WriteAll replicas arrivals).status ≠ .success) := by
  have first : (write .WriteAll replicas arrivals).status = .success →
      ∀ r ∈ replicas, (r, ReplicaOutcome.ack) ∈
        arrivals.take (write .WriteAll replicas arrivals).consumed := by
    intro hs r hr
    rcases awaitAll_success_acked replicas arrivals ⟨[]⟩ 0 hs r hr with h | h
    · cases h
    · simpa [write] using h
  refine ⟨first, fun r hr hmiss => ?_⟩
  cases hst : (write .WriteAll replicas arrivals).status with
  | success => exact absurd (List.mem_of_mem_take (first hst r hr)) hmiss
  | WriteQuorumFailed => exact ⟨rfl, by decide⟩

/-- Witness for C6: two replicas, the acknowledgment of replica 2 dropped. -/
theorem write_all_needs_every_ack_witness :
    (2 ∈ [1, 2] ∧ ((2 : ReplicaID), ReplicaOutcome.ack) ∉ [(1, ReplicaOutcome.ack)]) ∧
    ((write .WriteAll [1, 2] [(1, .ack)]).status = .WriteQuorumFailed ∧
      (write .WriteAll [1, 2] [(1, .ack)]).status ≠ .success) :=
  ⟨by decide,
    (write_all_needs_every_ack [1, 2] [(1, .ack)]).2 2 (by decide) (by decide)⟩

end Agromount
